import Mathlib

/-!
Verification of the gRPC root certificate accessor from
`Firestore/core/src/firebase/firestore/remote/grpc_root_certificate_finder_generated.cc`.

The source defines a single function:

  std::string LoadGrpcRootCertificate() {
    return {reinterpret_cast<const char*>(grpc_root_certificates),
            grpc_root_certificates_size};
  }

`grpc_root_certificates` and `grpc_root_certificates_size` are declared in the
generated header `grpc_root_certificates_generated.h` (not part of the sources
at hand); they are modelled from the spec below.
-/

/-- A byte, as stored in the embedded `unsigned char` array. -/
abbrev Byte := Fin 256

/-- Modelled from the spec: the embedded certificate bundle declared in the
generated header `grpc_root_certificates_generated.h`, which is not among the
sources at hand.  Per the spec, the build-time generator produces a
statically-initialized byte array `grpc_root_certificates` together with the
compile-time constant `grpc_root_certificates_size`, and guarantees as a
build-time invariant that the size constant equals the true byte length of the
data ("length field equals the true byte length of the data field; any
mismatch is a build-time defect"). -/
structure GrpcRootCertificates where
  grpc_root_certificates : List Byte
  grpc_root_certificates_size : Nat
  size_eq : grpc_root_certificates_size = grpc_root_certificates.length

/-- Embedding of `LoadGrpcRootCertificate`: the `std::string` constructor
`string(const char* s, size_t n)` copies exactly `n` bytes starting at `s`,
i.e. the first `grpc_root_certificates_size` bytes of the embedded array. -/
def LoadGrpcRootCertificate (env : GrpcRootCertificates) : List Byte :=
  env.grpc_root_certificates.take env.grpc_root_certificates_size

/-- A concrete, well-formed build artifact used by witnesses: a three-byte
bundle. -/
def sampleEnv : GrpcRootCertificates :=
  { grpc_root_certificates := [(45 : Byte), (45 : Byte), (66 : Byte)]
    grpc_root_certificates_size := 3
    size_eq := rfl }

/-- A concrete build artifact with an empty trust store. -/
def emptyEnv : GrpcRootCertificates :=
  { grpc_root_certificates := []
    grpc_root_certificates_size := 0
    size_eq := rfl }

/-- Vocabulary of observable external effects a call could perform (file,
network).  The body of `LoadGrpcRootCertificate` is a single `std::string`
construction from the embedded array; it calls no I/O facility, so its
embedded effect trace is empty. -/
inductive Effect where
  | fileRead (path : List Byte)
  | fileWrite (path : List Byte)
  | network (bytes : List Byte)
deriving DecidableEq

/-- Process state visible to a call: the static, compiled-in bundle, plus a
frame `world` standing for every other piece of process state (heap,
filesystem handles, and so on), of arbitrary type `W`. -/
structure ProcessState (W : Type) where
  certs : GrpcRootCertificates
  world : W

/-- One invocation of the accessor, as a transition on process state: it
returns the resulting process state, the returned byte sequence, and the
trace of external effects performed.  The source body is a single return
expression reading the static array, so the state is passed through
unchanged and the effect trace is empty. -/
def invoke {W : Type} (s : ProcessState W) :
    ProcessState W × List Byte × List Effect :=
  (s, LoadGrpcRootCertificate s.certs, [])

/-- The `reinterpret_cast<const char*>` view of a stored byte: `char` is
signed 8-bit on the target platforms, so the byte's bit pattern is read as a
two's-complement value. -/
def charOfByte (b : Byte) : Int :=
  if b.val < 128 then (b.val : Int) else (b.val : Int) - 256

/-- The bit pattern of a `char` value, recovered as an unsigned byte. -/
def charBits (c : Int) : Nat :=
  (c % 256).toNat

/-- A concrete process state over a trivial frame, used by witnesses. -/
def sampleState : ProcessState Unit :=
  { certs := sampleEnv, world := () }

/-- The accessor with an explicit error channel, mirroring the fact that the
C++ function could in principle signal failure only through an exception or
error value.  Its body contains no conditional, no assertion and no throw, so
the embedding always takes the `ok` branch. -/
def LoadGrpcRootCertificateResult (env : GrpcRootCertificates) :
    Except Nat (List Byte) :=
  Except.ok (LoadGrpcRootCertificate env)

/-- Local state of one concurrent caller: the bytes its own copy holds so
far, in order, while the `std::string` constructor copies the shared array. -/
structure CallerState where
  copied : List Byte
deriving DecidableEq

/-- One scheduler-chosen step of a caller: copy the next byte of the shared
bundle into the caller's own buffer, or do nothing if the copy is complete.
The shared bundle is only read, never written. -/
def callerStep (bundle : List Byte) (c : CallerState) : CallerState :=
  { copied := c.copied ++ (bundle[c.copied.length]?).toList }

/-- The scheduler lets caller `i` perform one step; other callers are
untouched. -/
def schedStep (bundle : List Byte) (cs : List CallerState) (i : Nat) :
    List CallerState :=
  cs.set i (callerStep bundle (cs.getD i ⟨[]⟩))

/-- Run an arbitrary interleaving: the schedule lists, in order, which caller
moves at each instant.  This covers every serialization of `N` parallel
callers executing their copy loops concurrently. -/
def runSchedule (bundle : List Byte) : List CallerState → List Nat → List CallerState
  | cs, [] => cs
  | cs, i :: rest => runSchedule bundle (schedStep bundle cs i) rest

/-- C2 helper: the returned bytes are exactly the embedded array. -/
theorem load_eq_data (env : GrpcRootCertificates) :
    LoadGrpcRootCertificate env = env.grpc_root_certificates := by
  unfold LoadGrpcRootCertificate
  rw [env.size_eq, List.take_length]

/-- C1: for every invocation of `LoadGrpcRootCertificate`, the length of the
returned byte sequence equals the compile-time constant
`grpc_root_certificates_size`. -/
theorem LoadGrpcRootCertificate_length (env : GrpcRootCertificates) :
    (LoadGrpcRootCertificate env).length = env.grpc_root_certificates_size := by
  rw [load_eq_data, env.size_eq]

/-- C2: the content of the byte sequence returned by
`LoadGrpcRootCertificate` equals, byte for byte, the embedded bundle data
`grpc_root_certificates`, with no additional transformation applied. -/
theorem LoadGrpcRootCertificate_content (env : GrpcRootCertificates) :
    LoadGrpcRootCertificate env = env.grpc_root_certificates :=
  load_eq_data env

/-- C7: if the embedded bundle has length 0 (empty trust store),
`LoadGrpcRootCertificate` returns an empty byte sequence. -/
theorem LoadGrpcRootCertificate_empty_bundle (env : GrpcRootCertificates)
    (h : env.grpc_root_certificates_size = 0) :
    LoadGrpcRootCertificate env = [] := by
  rw [load_eq_data]
  have hl : env.grpc_root_certificates.length = 0 := by
    rw [← env.size_eq, h]
  exact List.length_eq_zero.mp hl

/-- C7 witness: the empty build artifact exercises the boundary case. -/
theorem LoadGrpcRootCertificate_empty_bundle_witness :
    emptyEnv.grpc_root_certificates_size = 0 ∧ LoadGrpcRootCertificate emptyEnv = [] :=
  ⟨rfl, LoadGrpcRootCertificate_empty_bundle emptyEnv rfl⟩

/-- C3: for any two invocations of `LoadGrpcRootCertificate` in the same
process, the two returned byte sequences are byte-for-byte identical: the
accessor is deterministic and its output is invariant across calls. -/
theorem LoadGrpcRootCertificate_deterministic (W : Type) (s : ProcessState W) :
    (invoke ((invoke s).1)).2.1 = (invoke s).2.1 :=
  rfl

/-- C4: `LoadGrpcRootCertificate` is total and never fails: every invocation
takes the `ok` branch and no error outcome is reachable. -/
theorem LoadGrpcRootCertificate_total (env : GrpcRootCertificates) :
    LoadGrpcRootCertificateResult env = Except.ok (LoadGrpcRootCertificate env) ∧
      ∀ e : Nat, LoadGrpcRootCertificateResult env ≠ Except.error e := by
  refine ⟨rfl, fun e h => ?_⟩
  simp [LoadGrpcRootCertificateResult] at h

/-- C6: invoking the accessor has no observable side effect: the whole
process state (the embedded bundle and the arbitrary frame `world`) is
unchanged, and the call performs no external (file or network) effect. -/
theorem invoke_no_side_effects (W : Type) (s : ProcessState W) :
    (invoke s).1 = s ∧ (invoke s).2.2 = [] :=
  ⟨rfl, rfl⟩

/-- C8: the bundle-length constant equals the true byte length of the
embedded bundle data, and the data is never mutated at runtime: every
invocation leaves the embedded bundle exactly as it was. -/
theorem bundle_size_invariant :
    (∀ env : GrpcRootCertificates,
      env.grpc_root_certificates_size = env.grpc_root_certificates.length) ∧
      ∀ (W : Type) (s : ProcessState W), ((invoke s).1).certs = s.certs :=
  ⟨fun env => env.size_eq, fun _ _ => rfl⟩

set_option maxRecDepth 8192 in
/-- C10: the accessor preserves every byte of the embedded bundle — the
result has the full length and agrees with the bundle at every position
(so interior zero bytes are never a truncation point), and the
unsigned-char-to-char reinterpretation preserves each byte's bit pattern. -/
theorem LoadGrpcRootCertificate_preserves_bytes (env : GrpcRootCertificates) :
    (LoadGrpcRootCertificate env).length = env.grpc_root_certificates.length ∧
      (∀ i : Nat,
        (LoadGrpcRootCertificate env)[i]? = env.grpc_root_certificates[i]?) ∧
      ∀ b : Byte, charBits (charOfByte b) = b.val := by
  refine ⟨by rw [load_eq_data], fun i => by rw [load_eq_data], fun b => ?_⟩
  revert b
  decide

/-- C5: each call returns a fresh, independently owned copy.  After a caller
overwrites position `i` of its copy with a byte `b` different from the
original, the embedded bundle is unchanged and a second invocation still
returns the original content, which still differs from `b` at `i`. -/
theorem LoadGrpcRootCertificate_fresh_copy (W : Type) (s : ProcessState W)
    (i : Nat) (b : Byte)
    (hi : i < (invoke s).2.1.length)
    (hb : (invoke s).2.1[i]? ≠ some b) :
    (((invoke s).2.1).set i b)[i]? = some b ∧
      (invoke ((invoke s).1)).1.certs.grpc_root_certificates
        = s.certs.grpc_root_certificates ∧
      (invoke ((invoke s).1)).2.1 = (invoke s).2.1 ∧
      (invoke ((invoke s).1)).2.1[i]? ≠ some b :=
  ⟨List.getElem?_set_self hi, rfl, rfl, hb⟩

/-- C5 witness: a concrete caller overwrites byte 0 of its copy with `0`. -/
theorem LoadGrpcRootCertificate_fresh_copy_witness :
    (0 < (invoke sampleState).2.1.length) ∧
      ((invoke sampleState).2.1[0]? ≠ some (0 : Byte)) ∧
      ((((invoke sampleState).2.1).set 0 (0 : Byte))[0]? = some (0 : Byte) ∧
        (invoke ((invoke sampleState).1)).1.certs.grpc_root_certificates
          = sampleState.certs.grpc_root_certificates ∧
        (invoke ((invoke sampleState).1)).2.1 = (invoke sampleState).2.1 ∧
        (invoke ((invoke sampleState).1)).2.1[0]? ≠ some (0 : Byte)) :=
  ⟨by decide, by decide,
    LoadGrpcRootCertificate_fresh_copy Unit sampleState 0 0 (by decide) (by decide)⟩

/-- One copy step on a caller holding the first `k` bytes yields the first
`k + 1` bytes (or all of them, once the bundle is exhausted). -/
theorem callerStep_take (bundle : List Byte) (k : Nat) :
    callerStep bundle ⟨bundle.take k⟩ = ⟨bundle.take (k + 1)⟩ := by
  have hidx : bundle[(bundle.take k).length]? = bundle[k]? := by
    rcases Nat.lt_or_ge k bundle.length with h | h
    · rw [List.length_take, Nat.min_eq_left h.le]
    · rw [List.length_take, Nat.min_eq_right h]
      rw [List.getElem?_eq_none (le_refl _), List.getElem?_eq_none h]
  unfold callerStep
  rw [hidx, ← List.take_succ]

/-- Iterating the copy step `m` times from an empty buffer yields the first
`m` bytes of the bundle. -/
theorem callerStep_iterate (bundle : List Byte) :
    ∀ m : Nat, (callerStep bundle)^[m] ⟨[]⟩ = ⟨bundle.take m⟩
  | 0 => by simp
  | m + 1 => by
      rw [Function.iterate_succ_apply', callerStep_iterate bundle m,
        callerStep_take]

/-- Steps scheduled for other callers never touch caller `i`; each step
scheduled for `i` advances it by one copy step.  Hence after any interleaving
caller `i` has performed exactly as many copy steps as the schedule granted
it. -/
theorem runSchedule_getElem (bundle : List Byte) :
    ∀ (sched : List Nat) (cs : List CallerState) (i : Nat),
      (runSchedule bundle cs sched)[i]? =
        Option.map ((callerStep bundle)^[sched.count i]) cs[i]?
  | [], cs, i => by
      rw [runSchedule, List.count_nil, Function.iterate_zero]
      cases cs[i]? <;> rfl
  | j :: rest, cs, i => by
      rw [runSchedule, runSchedule_getElem bundle rest (schedStep bundle cs j) i]
      rcases eq_or_ne j i with rfl | hne
      · have hs : (schedStep bundle cs j)[j]? =
            Option.map (callerStep bundle) cs[j]? := by
          unfold schedStep
          rcases Nat.lt_or_ge j cs.length with h | h
          · rw [List.getElem?_set_self h, List.getD_eq_getElem?_getD,
              List.getElem?_eq_getElem h]
            rfl
          · rw [List.set_eq_of_length_le h, List.getElem?_eq_none h]
            rfl
        rw [hs, List.count_cons]
        simp only [beq_self_eq_true, if_true]
        cases cs[j]? with
        | none => rfl
        | some c =>
            rw [Option.map_some', Option.map_some', Option.map_some',
              ← Function.iterate_succ_apply]
      · have hs : (schedStep bundle cs j)[i]? = cs[i]? :=
          List.getElem?_set_ne hne
        rw [hs, List.count_cons, if_neg (by simpa using hne)]
        rfl

/-- C9: for any number `n ≥ 2` of parallel callers and any interleaving of
their copy loops (any schedule), every caller that was scheduled at least
bundle-length many steps ends up holding exactly the accessor's result —
identical content for all callers, with no interference or corruption and no
locking anywhere in the model. -/
theorem concurrent_callers_identical (env : GrpcRootCertificates)
    (n : Nat) (sched : List Nat) (i : Nat)
    (hn : 2 ≤ n) (hi : i < n)
    (hc : env.grpc_root_certificates.length ≤ sched.count i) :
    (runSchedule env.grpc_root_certificates
        (List.replicate n (CallerState.mk [])) sched)[i]? =
      some (CallerState.mk (LoadGrpcRootCertificate env)) := by
  rw [runSchedule_getElem, List.getElem?_replicate, if_pos hi,
    Option.map_some', callerStep_iterate, List.take_of_length_le hc,
    load_eq_data]

/-- C9 witness: two callers interleaved alternately over the three-byte
sample bundle both finish; caller 0 holds exactly the accessor's result. -/
theorem concurrent_callers_identical_witness :
    2 ≤ 2 ∧ (0 : Nat) < 2 ∧
      sampleEnv.grpc_root_certificates.length ≤
        ([0, 1, 0, 1, 0, 1] : List Nat).count 0 ∧
      (runSchedule sampleEnv.grpc_root_certificates
          (List.replicate 2 (CallerState.mk [])) [0, 1, 0, 1, 0, 1])[0]? =
        some (CallerState.mk (LoadGrpcRootCertificate sampleEnv)) :=
  ⟨by decide, by decide, by decide,
    concurrent_callers_identical sampleEnv 2 [0, 1, 0, 1, 0, 1] 0
      (by decide) (by decide) (by decide)⟩
